import Mathlib

/-!
Verification of the experiment-run harness `logger.py`.

The development shallowly embeds the functions of the source file:
`setup_experiment_directory`, `capture_environment_info`,
`copy_external_code`, `load_data_paths`, `run_experiment`,
`initialize_experiment_folder`, the `Tee` class with `log_terminal`, and
the command-line entry point.  Filesystem state is modelled explicitly
(directory listings as association lists, external paths as a finite map
from path strings to a path kind), fallible operating-system facilities
are inputs of type `Except`, and Python exceptions are the `Err` type.
-/

set_option autoImplicit false

/-- Python exceptions raised by the code under study. -/
inductive Err where
  /-- `FileExistsError` from `os.makedirs` or `shutil.copytree`. -/
  | fileExists
  /-- `NotADirectoryError` from `shutil.copytree` applied to a regular file. -/
  | notADirectory
  /-- The `FileNotFoundError` raised by `run_experiment` when no entry script exists. -/
  | entryNotFound
  /-- `IsADirectoryError` from `open(..., "w")` on a directory. -/
  | isADirectory
  /-- `ValueError`: I/O operation on a closed file. -/
  | valueError
  /-- An arbitrary exception escaping an unguarded environment lookup. -/
  | captureFailure
  deriving DecidableEq, Repr

/- ## Character-level string helpers

Python's `str.strip`, `str.split("=", 1)`, `os.path.basename` and
`str.join` are modelled by structural recursion over the character data
of a `String` so that every definition evaluates by kernel reduction. -/

/-- The characters Python's `str.strip()` removes (`string.whitespace`). -/
def isPySpace (c : Char) : Bool :=
  c = ' ' || c = '\t' || c = '\n' || c = '\x0d' || c = '\x0b' || c = '\x0c'

/-- Python's `str.strip()`: drop leading and trailing whitespace. -/
def pstrip (s : String) : String :=
  String.mk (((s.data.dropWhile isPySpace).reverse.dropWhile isPySpace).reverse)

/-- Python's `in` test for a single character: `c in s`. -/
def containsChar (s : String) (c : Char) : Bool :=
  s.data.any (fun x => x = c)

/-- Split a character list at the first occurrence of `c`; `none` when
`c` does not occur.  Models Python's `str.split(c, 1)`. -/
def splitFirstAux (c : Char) : List Char → List Char → Option (List Char × List Char)
  | [], _ => none
  | x :: xs, acc => if x = c then some (acc.reverse, xs) else splitFirstAux c xs (x :: acc)

/-- Characters after the last `/`; models POSIX `os.path.basename`. -/
def basenameAux : List Char → List Char → List Char
  | [], acc => acc.reverse
  | c :: cs, acc => if c = '/' then basenameAux cs [] else basenameAux cs (c :: acc)

/-- POSIX `os.path.basename`. -/
def basename (s : String) : String :=
  String.mk (basenameAux s.data [])

/-- Python's `sep.join(list)`. -/
def joinSep (sep : String) : List String → String
  | [] => ""
  | [x] => x
  | x :: y :: xs => x ++ sep ++ joinSep sep (y :: xs)

/-- Concatenation of a list of strings (`"".join`). -/
def concatAll : List String → String
  | [] => ""
  | x :: xs => x ++ concatAll xs

/-- Code-point lexicographic order on character lists, as Python compares
strings. -/
def charListLe : List Char → List Char → Bool
  | [], _ => true
  | _ :: _, [] => false
  | a :: as, b :: bs => if a = b then charListLe as bs else decide (a.toNat < b.toNat)

/-- Insert a string into a sorted list, keeping it sorted. -/
def insertSorted (s : String) : List String → List String
  | [] => [s]
  | x :: xs => if charListLe s.data x.data then s :: x :: xs else x :: insertSorted s xs

/-- Python's `sorted` on a list of strings (insertion sort; the result is
the unique sorted rearrangement). -/
def sortStrings (l : List String) : List String :=
  l.foldr insertSorted []

/- ## TerminalTee: the `Tee` class and `log_terminal` (source lines 145-162)

A stream is its accumulated content plus an open/closed flag; `Tee` is
the list of sinks the class holds.  `log_terminal` opens
`Results/terminal_output.txt` inside a `with` block, installs
`Tee(sys.stdout, log_file)` and `Tee(sys.stderr, log_file)`, and then
returns, at which point the `with` block closes `log_file`; the closed
flag records that state. -/

/-- A text stream: `sys.stdout`, `sys.stderr`, or an opened file object. -/
structure TextStream where
  closed : Bool
  content : String
  deriving DecidableEq, Repr

/-- The list of files a `Tee` instance fans out to. -/
abbrev Tee := List TextStream

/-- `f.write(obj)`: raises `ValueError` on a closed file, else appends. -/
def streamWrite (s : TextStream) (obj : String) : Except Err TextStream :=
  if s.closed then .error Err.valueError
  else .ok { s with content := s.content ++ obj }

/-- `f.flush()`: raises `ValueError` on a closed file, else is a no-op. -/
def streamFlush (s : TextStream) : Except Err TextStream :=
  if s.closed then .error Err.valueError else .ok s

/-- `Tee.write` (source lines 149-152): for each sink in order, write the
object and then flush. -/
def Tee.write : Tee → String → Except Err Tee
  | [], _ => .ok []
  | f :: fs, obj =>
    match streamWrite f obj with
    | .error e => .error e
    | .ok f1 =>
      match streamFlush f1 with
      | .error e => .error e
      | .ok f2 =>
        match Tee.write fs obj with
        | .error e => .error e
        | .ok fs2 => .ok (f2 :: fs2)

/-- `log_terminal` (source lines 158-162): the state of `sys.stdout` and
`sys.stderr` after the call returns.  The `with` block has closed the
log file by then, which the `closed := true` field records. -/
def log_terminal (stdout stderr : TextStream) : Tee × Tee :=
  ([stdout, { closed := true, content := "" }],
   [stderr, { closed := true, content := "" }])

/- ## EnvironmentSnapshot: `capture_environment_info` (source lines 33-54)

The fallible operating-system facilities are inputs: the package
inventory `importlib.metadata.distributions()` (name, version pairs),
the two scheduler environment variables, `os.uname().nodename`, and the
combined `cat /etc/hostname` / `docker inspect` pipeline.  Only the
Docker pipeline is wrapped in `try`/`except` by the source; every other
failure propagates out of the function before the report is written. -/

/-- The text of `Code/environment.txt` (source lines 48-54). -/
def mkEnvReport (pythonVersion dockerImage slurmJobId nodeName : String)
    (packages : List String) : String :=
  "Python Version:\n" ++ pythonVersion ++ "\n\n" ++
  "Docker Image: " ++ dockerImage ++ "\n" ++
  "Slurm Job ID: " ++ slurmJobId ++ "\n" ++
  "Node Name: " ++ nodeName ++ "\n\n" ++
  "Installed Packages:\n" ++ joinSep "\n" packages

/-- `capture_environment_info`: returns the report content written to
`Code/environment.txt`, or the exception that escaped.  `os.uname()` is
evaluated eagerly as the default argument of `os.getenv`, before the
`SLURMD_NODENAME` fallback choice is made, exactly as in line 38. -/
def capture_environment_info (pythonVersion : String)
    (distributions : Except Err (List (String × String)))
    (slurmJobId slurmdNodename : Option String)
    (unameNodename : Except Err String)
    (dockerInspect : Except Err String) : Except Err String :=
  match distributions with
  | .error e => .error e
  | .ok dists =>
    let installed := sortStrings (dists.map (fun nv => nv.1 ++ "==" ++ nv.2))
    let slurm_job_id := slurmJobId.getD "Not running under Slurm"
    match unameNodename with
    | .error e => .error e
    | .ok un =>
      let node_name := slurmdNodename.getD un
      let docker_image :=
        match dockerInspect with
        | .ok img => img
        | .error _ => "Could not retrieve Docker image"
      .ok (mkEnvReport pythonVersion docker_image slurm_job_id node_name installed)

/- ## EntryPointRunner: `run_experiment` (source lines 101-126)

The child process is a function from the chosen script kind to its
combined output lines and exit status.  `RunEffects` records the
observable effects of a successful call: the script spawned, whether
the both-exist warning was printed, the content written to
`Results/terminal_output.txt`, and the status `process.wait()` returned
(which the source discards). -/

/-- Which entry script was resolved. -/
inductive EntryChoice where
  | py
  | sh
  deriving DecidableEq, Repr

/-- Behaviour of the spawned child: its combined stdout/stderr lines and
its exit status. -/
structure ChildResult where
  outputLines : List String
  exitCode : Int
  deriving DecidableEq, Repr

/-- Observable effects of a successful `run_experiment` call. -/
structure RunEffects where
  script : EntryChoice
  warned : Bool
  logContent : String
  waitedExit : Int
  deriving DecidableEq, Repr

/-- `run_experiment`: resolve the entry script from the existence of
`main.py` and `main.sh` in the run directory, spawn it, copy each output
line to the terminal and to the log file, and wait.  The exit status is
recorded in the effects but not returned to the caller (the Python
function returns `None`). -/
def run_experiment (pyExists shExists : Bool) (child : EntryChoice → ChildResult) :
    Except Err RunEffects :=
  if !pyExists && !shExists then .error Err.entryNotFound
  else
    let warned := pyExists && shExists
    let script := if shExists then EntryChoice.sh else EntryChoice.py
    let res := child script
    .ok { script := script, warned := warned,
          logContent := concatAll res.outputLines, waitedExit := res.exitCode }

/- ## Claim theorems for C1, C4 and C6 -/

/-- Claim C1 (code bug): after `log_terminal` returns, every write to the
redirected standard-output or standard-error stream raises `ValueError`
instead of being delivered to both sinks, because the `with` block in
`log_terminal` has already closed the log file.  Whether the original
stream is open or closed, the `Tee` write fails. -/
theorem log_terminal_write_raises (stdout stderr : TextStream) (obj : String) :
    Tee.write (log_terminal stdout stderr).1 obj = .error Err.valueError ∧
    Tee.write (log_terminal stdout stderr).2 obj = .error Err.valueError := by
  constructor <;>
  · rcases stdout with ⟨c, t⟩
    rcases stderr with ⟨c2, t2⟩
    cases c <;> cases c2 <;>
      simp [log_terminal, Tee.write, streamWrite, streamFlush]

/-- Claim C4, counterexample: a failing installed-package inventory
lookup aborts `capture_environment_info` entirely; no placeholder is
substituted and the report is never written, contradicting the claim
that any individual lookup failure degrades to a placeholder. -/
theorem capture_environment_counterexample :
    capture_environment_info "3.11.0" (.error Err.captureFailure) none none
      (.ok "nodeA") (.ok "imageB") = .error Err.captureFailure := rfl

/-- Claim C4, amended: only the Docker-image lookup is guarded — its
failure yields the placeholder `"Could not retrieve Docker image"` and
the report is still written; an absent scheduler job id or node name
falls back to its default; but a failing package-inventory lookup, or a
failing `os.uname()` (which is evaluated even when `SLURMD_NODENAME` is
set), propagates and aborts the capture with no report written. -/
theorem capture_environment_best_effort (pv : String)
    (dists : List (String × String)) (sj sn : Option String) (un : String)
    (e e' : Err) (d : Except Err String) :
    capture_environment_info pv (.ok dists) sj sn (.ok un) (.error e) =
      .ok (mkEnvReport pv "Could not retrieve Docker image"
            (sj.getD "Not running under Slurm") (sn.getD un)
            (sortStrings (dists.map (fun nv => nv.1 ++ "==" ++ nv.2)))) ∧
    capture_environment_info pv (.error e') sj sn (.ok un) d = .error e' ∧
    capture_environment_info pv (.ok dists) sj sn (.error e') d = .error e' :=
  ⟨rfl, rfl, rfl⟩

/-- Claim C6: the entry-resolution policy of `run_experiment`.  With
neither script present the call fails with the entry-not-found error for
every possible child behaviour (so no child is consulted); with both
present the warning is emitted and `main.sh` runs; otherwise whichever
script exists runs without a warning. -/
theorem run_experiment_resolution (child : EntryChoice → ChildResult) :
    run_experiment false false child = .error Err.entryNotFound ∧
    run_experiment true true child =
      .ok { script := EntryChoice.sh, warned := true,
            logContent := concatAll (child EntryChoice.sh).outputLines,
            waitedExit := (child EntryChoice.sh).exitCode } ∧
    run_experiment true false child =
      .ok { script := EntryChoice.py, warned := false,
            logContent := concatAll (child EntryChoice.py).outputLines,
            waitedExit := (child EntryChoice.py).exitCode } ∧
    run_experiment false true child =
      .ok { script := EntryChoice.sh, warned := false,
            logContent := concatAll (child EntryChoice.sh).outputLines,
            waitedExit := (child EntryChoice.sh).exitCode } :=
  ⟨rfl, rfl, rfl, rfl⟩

/- ## CodeStager: `copy_external_code` (source lines 57-71)

External paths live in a finite map from path strings to a kind (file or
directory); `codepaths.txt` is `none` when absent, else its list of raw
lines (without the trailing newline that `line.strip()` removes).  A
successful call returns the list of `shutil.copytree` copies performed,
as (source path, base name) pairs, together with the content written to
the run root's rewritten `codepaths.txt`.  `shutil.copytree` on a
regular file raises `NotADirectoryError`, aborting the function before
the rewritten file is written. -/

/-- What an external path names. -/
inductive PathKind where
  | dir
  | file
  deriving DecidableEq, Repr

/-- The external filesystem: existing paths and their kinds. -/
abbrev ExtFs := List (String × PathKind)

/-- `os.path.exists` / kind lookup on the external filesystem. -/
def findPath : ExtFs → String → Option PathKind
  | [], _ => none
  | (p, k) :: rest, q => if p = q then some k else findPath rest q

/-- The staging loop of `copy_external_code` (source lines 62-67): for
each line whose stripped path exists, `shutil.copytree` it under its
base name inside `Code` and record the run-relative path. -/
def stageLines (fs : ExtFs) : List String → Except Err (List (String × String) × List String)
  | [] => .ok ([], [])
  | line :: rest =>
    let p := pstrip line
    match findPath fs p with
    | none => stageLines fs rest
    | some PathKind.file => .error Err.notADirectory
    | some PathKind.dir =>
      match stageLines fs rest with
      | .error e => .error e
      | .ok (ops, rels) => .ok ((p, basename p) :: ops, ("Code/" ++ basename p) :: rels)

/-- `copy_external_code`: stage every existing path listed in
`codepaths.txt` and rewrite the file in the run root with the
run-relative paths, newline-terminated (`"\n".join(new_codepaths) + "\n"`);
with no `codepaths.txt` nothing is staged and the rewritten file is the
single empty line.  (The `sys.path.insert` side effect has no bearing on
any claim and is not modelled.) -/
def copy_external_code (codepaths : Option (List String)) (fs : ExtFs) :
    Except Err (List (String × String) × String) :=
  match codepaths with
  | none => .ok ([], joinSep "\n" [] ++ "\n")
  | some lines =>
    match stageLines fs lines with
    | .error e => .error e
    | .ok (ops, rels) => .ok (ops, joinSep "\n" rels ++ "\n")

/-- Any line naming an existing regular file makes the staging loop raise
`NotADirectoryError`. -/
theorem stageLines_file_entry (fs : ExtFs) (lines : List String)
    (h : ∃ l, l ∈ lines ∧ findPath fs (pstrip l) = some PathKind.file) :
    stageLines fs lines = .error Err.notADirectory := by
  induction lines with
  | nil => rcases h with ⟨l, hl, _⟩; cases hl
  | cons a as ih =>
    rcases h with ⟨l, hl, hfile⟩
    rcases List.mem_cons.mp hl with rfl | hmem
    · simp [stageLines, hfile]
    · cases hfa : findPath fs (pstrip a) with
      | none => simpa [stageLines, hfa] using ih ⟨l, hmem, hfile⟩
      | some k =>
        cases k with
        | file => simp [stageLines, hfa]
        | dir => simp [stageLines, hfa, ih ⟨l, hmem, hfile⟩]

/-- When every line that names an existing path names a directory, the
staging loop succeeds and produces exactly the copies and run-relative
paths of those lines, in order. -/
theorem stageLines_dirs (fs : ExtFs) (lines : List String)
    (hdir : ∀ l ∈ lines, findPath fs (pstrip l) ≠ some PathKind.file) :
    stageLines fs lines =
      .ok ((((lines.map pstrip).filter (fun p => (findPath fs p).isSome)).map
              (fun p => (p, basename p))),
           (((lines.map pstrip).filter (fun p => (findPath fs p).isSome)).map
              (fun p => "Code/" ++ basename p))) := by
  induction lines with
  | nil => rfl
  | cons a as ih =>
    have hrest : ∀ l ∈ as, findPath fs (pstrip l) ≠ some PathKind.file :=
      fun l hl => hdir l (List.mem_cons_of_mem _ hl)
    cases hfa : findPath fs (pstrip a) with
    | none => simp [stageLines, hfa, ih hrest, List.filter_cons]
    | some k =>
      cases k with
      | file => exact absurd hfa (hdir a (List.mem_cons_self a as))
      | dir => simp [stageLines, hfa, ih hrest, List.filter_cons]

/-- Claim C9: a `codepaths.txt` line naming an existing regular file
makes `copy_external_code` raise `NotADirectoryError`; the rewritten
`codepaths.txt` is not written (the error is returned in place of any
output). -/
theorem copy_external_code_file_entry (lines : List String) (fs : ExtFs)
    (h : ∃ l, l ∈ lines ∧ findPath fs (pstrip l) = some PathKind.file) :
    copy_external_code (some lines) fs = .error Err.notADirectory := by
  simp [copy_external_code, stageLines_file_entry fs lines h]

/-- Claim C9, witness: a single-line `codepaths.txt` naming the existing
regular file `notes.txt` aborts staging with `NotADirectoryError`. -/
theorem copy_external_code_file_entry_witness :
    copy_external_code (some ["notes.txt"]) [("notes.txt", PathKind.file)] =
      .error Err.notADirectory :=
  copy_external_code_file_entry _ _ ⟨"notes.txt", by simp, rfl⟩

/-- Claim C5, counterexample: with `codepaths.txt` holding one entry
(`N = 1`) that names an existing path (`M = 1`) which is a regular file,
`copy_external_code` raises instead of copying one tree and writing a
one-line rewritten `codepaths.txt`, so the claim fails for existing
paths that are not directories. -/
theorem copy_external_code_counterexample :
    copy_external_code (some ["f.txt"]) [("f.txt", PathKind.file)] =
      .error Err.notADirectory := rfl

/-- Claim C5, amended: for a `codepaths.txt` whose entries that name
existing paths all name existing directories (with nonempty base names,
i.e. no trailing path separator), exactly those M trees are copied under
`Code`, each under its own base name, and the rewritten `codepaths.txt`
holds exactly their M run-relative paths, one per line and
newline-terminated; when M is zero, or when no `codepaths.txt` exists,
the rewritten file is a single empty line.  An entry naming an existing
regular file instead raises `NotADirectoryError` and no rewritten file
is written. -/
theorem copy_external_code_stages (lines : List String) (fs : ExtFs)
    (hdir : ∀ l ∈ lines, findPath fs (pstrip l) ≠ some PathKind.file)
    (hbase : ∀ l ∈ lines, (findPath fs (pstrip l)).isSome → basename (pstrip l) ≠ "") :
    copy_external_code (some lines) fs =
      .ok ((((lines.map pstrip).filter (fun p => (findPath fs p).isSome)).map
              (fun p => (p, basename p))),
           joinSep "\n"
             (((lines.map pstrip).filter (fun p => (findPath fs p).isSome)).map
               (fun p => "Code/" ++ basename p)) ++ "\n") ∧
    copy_external_code none fs = .ok ([], "\n") := by
  refine ⟨?_, rfl⟩
  simp [copy_external_code, stageLines_dirs fs lines hdir]

/-- Claim C5, witness: one existing directory `/a/lib`, one missing path
and one blank line give exactly one staged copy and the rewritten
content `"Code/lib\n"`; absent `codepaths.txt` gives the single empty
line. -/
theorem copy_external_code_stages_witness :
    copy_external_code (some ["/a/lib", "missing", ""]) [("/a/lib", PathKind.dir)] =
      .ok ([("/a/lib", "lib")], "Code/lib\n") ∧
    copy_external_code none [("/a/lib", PathKind.dir)] = .ok ([], "\n") :=
  copy_external_code_stages ["/a/lib", "missing", ""] [("/a/lib", PathKind.dir)]
    (by decide) (by decide)

/- ## PathRegistry: `load_data_paths` (source lines 77-92)

`DATA_PATHS` is a Python dict, modelled as an association list with
dict update semantics: assigning to a present key replaces its value in
place, assigning to a new key appends.  `os.path.exists` and
`os.path.abspath` are function parameters.  Note that the source never
clears `DATA_PATHS`: `load_data_paths` folds the file's lines over
whatever map is already there. -/

/-- The global `DATA_PATHS` dict. -/
abbrev DataMap := List (String × String)

/-- Python dict assignment `m[k] = v`. -/
def dictInsert : DataMap → String → String → DataMap
  | [], k, v => [(k, v)]
  | (k0, v0) :: rest, k, v =>
    if k0 = k then (k0, v) :: rest else (k0, v0) :: dictInsert rest k v

/-- Python dict lookup `m.get(k)`, the body of `get_data_path`. -/
def dictLookup : DataMap → String → Option String
  | [], _ => none
  | (k0, v) :: rest, k => if k0 = k then some v else dictLookup rest k

/-- One iteration of the `load_data_paths` loop (source lines 83-89):
on a line with an `=`, split the stripped line at the first `=`; when
the path part exists, store its absolute form under the key; otherwise
(or with no `=`) leave the map alone. -/
def processLine (pexists : String → Bool) (abspath : String → String)
    (m : DataMap) (line : String) : DataMap :=
  if containsChar line '=' then
    match splitFirstAux '=' (pstrip line).data [] with
    | none => m
    | some (kcs, pcs) =>
      let key := String.mk kcs
      let path := String.mk pcs
      if pexists path then dictInsert m key (abspath path) else m
  else m

/-- The `load_data_paths` loop over all lines. -/
def loadLines (pexists : String → Bool) (abspath : String → String) :
    List String → DataMap → DataMap
  | [], m => m
  | l :: ls, m => loadLines pexists abspath ls (processLine pexists abspath m l)

/-- `load_data_paths`: `datapaths.txt` is `none` when absent (the map is
untouched), else its list of lines, folded into the current global
`DATA_PATHS` map. -/
def load_data_paths (pexists : String → Bool) (abspath : String → String)
    (datapaths : Option (List String)) (m : DataMap) : DataMap :=
  match datapaths with
  | none => m
  | some lines => loadLines pexists abspath lines m

/-- Whether one line of `datapaths.txt` stores the key `k`: it has an
`=`, its stripped form splits into `k` and a path, and the path exists. -/
def lineSets (pexists : String → Bool) (k : String) (line : String) : Bool :=
  containsChar line '=' &&
    match splitFirstAux '=' (pstrip line).data [] with
    | none => false
    | some (kcs, pcs) => (String.mk kcs == k) && pexists (String.mk pcs)

/-- Whether a `datapaths.txt` file stores the key `k` at all. -/
def setsKey (pexists : String → Bool) (datapaths : Option (List String))
    (k : String) : Bool :=
  match datapaths with
  | none => false
  | some lines => lines.any (lineSets pexists k)

theorem dictLookup_dictInsert_self (m : DataMap) (k v : String) :
    dictLookup (dictInsert m k v) k = some v := by
  induction m with
  | nil => simp [dictInsert, dictLookup]
  | cons kv rest ih =>
    by_cases h : kv.1 = k <;> simp [dictInsert, dictLookup, h, ih]

theorem dictLookup_dictInsert_ne (m : DataMap) (k v k2 : String) (h : k ≠ k2) :
    dictLookup (dictInsert m k v) k2 = dictLookup m k2 := by
  induction m with
  | nil => simp [dictInsert, dictLookup, h]
  | cons kv rest ih =>
    rcases kv with ⟨k0, v0⟩
    by_cases h0 : k0 = k
    · subst h0
      simp [dictInsert, dictLookup, h]
    · simp [dictInsert, dictLookup, h0, ih]

/-- The effect of one loop iteration on one key: the key is set to the
line's value (independent of the incoming map) when the line stores it,
else the lookup is unchanged. -/
theorem dictLookup_processLine (pexists : String → Bool) (abspath : String → String)
    (m : DataMap) (line k : String) :
    dictLookup (processLine pexists abspath m line) k =
      if lineSets pexists k line then
        dictLookup (processLine pexists abspath [] line) k
      else dictLookup m k := by
  by_cases hc : containsChar line '='
  · cases hs : splitFirstAux '=' (pstrip line).data [] with
    | none => simp [processLine, lineSets, hc, hs]
    | some kp =>
      rcases kp with ⟨kcs, pcs⟩
      by_cases hp : pexists (String.mk pcs)
      · by_cases hk : String.mk kcs = k
        · subst hk
          simp [processLine, lineSets, hc, hs, hp, dictLookup_dictInsert_self]
        · simp [processLine, lineSets, hc, hs, hp, hk,
                dictLookup_dictInsert_ne _ _ _ _ hk]
      · simp [processLine, lineSets, hc, hs, hp]
  · simp [processLine, lineSets, hc]

/-- The effect of a whole `load_data_paths` pass on one key: a key the
file stores gets the value the pass would give it starting from an empty
map; a key it does not store keeps its previous lookup. -/
theorem dictLookup_loadLines (pexists : String → Bool) (abspath : String → String)
    (ls : List String) (k : String) :
    ∀ m : DataMap,
      dictLookup (loadLines pexists abspath ls m) k =
        if ls.any (lineSets pexists k) then
          dictLookup (loadLines pexists abspath ls []) k
        else dictLookup m k := by
  induction ls with
  | nil => intro m; simp [loadLines]
  | cons l rest ih =>
    intro m
    by_cases hrest : rest.any (lineSets pexists k)
    · simp only [loadLines, List.any_cons, hrest, Bool.or_true, if_true]
      rw [ih (processLine pexists abspath m l), ih (processLine pexists abspath [] l)]
      simp [hrest]
    · by_cases hl : lineSets pexists k l
      · simp only [loadLines, List.any_cons, hl, Bool.true_or, if_true]
        rw [ih (processLine pexists abspath m l), ih (processLine pexists abspath [] l)]
        simp only [hrest, if_false, Bool.false_eq_true]
        rw [dictLookup_processLine pexists abspath m l k]
        simp [hl]
      · simp only [loadLines, List.any_cons, hl, hrest, Bool.false_or, if_false]
        rw [ih (processLine pexists abspath m l)]
        simp only [hrest, if_false, Bool.false_eq_true]
        rw [dictLookup_processLine pexists abspath m l k]
        simp [hl]

/-- Claim C3, counterexample: with both paths existing, loading
`datapaths.txt` content `a=/p` and then content `b=/q` leaves the map
holding both keys, while a single load of `b=/q` yields only `b` — the
second call merges rather than replacing from scratch, so a key present
only in the first call's file survives the second call. -/
theorem load_data_paths_counterexample :
    load_data_paths (fun _ => true) (fun p => p) (some ["b=/q"])
        (load_data_paths (fun _ => true) (fun p => p) (some ["a=/p"]) []) =
      [("a", "/p"), ("b", "/q")] ∧
    load_data_paths (fun _ => true) (fun p => p) (some ["b=/q"]) [] = [("b", "/q")] ∧
    ([("a", "/p"), ("b", "/q")] : DataMap) ≠ [("b", "/q")] :=
  ⟨rfl, rfl, by decide⟩

/-- Claim C3, amended: a second `load_data_paths` call merges into the
map left by the first instead of replacing it.  A key the second call's
file stores ends with the value a single call on that file would give
it; every other key keeps whatever the first call produced — keys
present only in the first call's file survive. -/
theorem load_data_paths_merges (pexists : String → Bool) (abspath : String → String)
    (f1 f2 : Option (List String)) (k : String) :
    dictLookup (load_data_paths pexists abspath f2
        (load_data_paths pexists abspath f1 [])) k =
      if setsKey pexists f2 k then
        dictLookup (load_data_paths pexists abspath f2 []) k
      else dictLookup (load_data_paths pexists abspath f1 []) k := by
  cases f2 with
  | none => simp [load_data_paths, setsKey]
  | some ls2 =>
    simp only [load_data_paths, setsKey]
    exact dictLookup_loadLines pexists abspath ls2 k _

/- ## RunDirectoryManager: `setup_experiment_directory` (source lines 17-30)

A directory is a listing: an ordered association of names to entries,
each entry a file (with its byte content as a string) or a directory.
`os.makedirs(EXP_DIR)` raises `FileExistsError` when the run directory
already exists, before anything is created; otherwise the run root is
created with its `Code` and `Results` subdirectories and every entry of
the source listing is copied in order — directories with
`shutil.copytree` (which raises `FileExistsError` on an existing
destination) and files with `shutil.copy` (which copies *into* an
existing destination directory under the source's base name). -/

/-- A filesystem subtree: a regular file with its content, or a
directory with its ordered entries. -/
inductive FsTree where
  | file (content : String)
  | dir (entries : List (String × FsTree))
  deriving Repr

/-- A directory listing. -/
abbrev Listing := List (String × FsTree)

/-- Look a name up in a listing. -/
def lookupEntry : Listing → String → Option FsTree
  | [], _ => none
  | (m, u) :: rest, n => if m = n then some u else lookupEntry rest n

/-- Set a name in a listing: replace in place when present, append when
absent. -/
def setEntry : Listing → String → FsTree → Listing
  | [], n, t => [(n, t)]
  | (m, u) :: rest, n, t =>
    if m = n then (n, t) :: rest else (m, u) :: setEntry rest n t

/-- A copy performed by the snapshot loop: `shutil.copytree` on a source
directory entry, or `shutil.copy` on a source file entry. -/
inductive CopyOp where
  | tree (name : String)
  | file (name : String)
  deriving DecidableEq, Repr

/-- The snapshot loop (source lines 23-30), copying each source entry in
listing order into the run root `dst`, and recording the copies made. -/
def copyItems : Listing → List (String × FsTree) → Except Err (Listing × List CopyOp)
  | dst, [] => .ok (dst, [])
  | dst, (name, FsTree.dir es) :: rest =>
    match lookupEntry dst name with
    | some _ => .error Err.fileExists
    | none =>
      match copyItems (setEntry dst name (FsTree.dir es)) rest with
      | .error e => .error e
      | .ok (out, ops) => .ok (out, CopyOp.tree name :: ops)
  | dst, (name, FsTree.file c) :: rest =>
    match lookupEntry dst name with
    | some (FsTree.dir inner) =>
      match copyItems (setEntry dst name
          (FsTree.dir (setEntry inner name (FsTree.file c)))) rest with
      | .error e => .error e
      | .ok (out, ops) => .ok (out, CopyOp.file name :: ops)
    | _ =>
      match copyItems (setEntry dst name (FsTree.file c)) rest with
      | .error e => .error e
      | .ok (out, ops) => .ok (out, CopyOp.file name :: ops)

/-- `setup_experiment_directory`: `expDir` is the current state of the
run-directory path (`none` when absent).  On success the final listing
of the run root and the copies performed are returned; when the path
already exists, `os.makedirs` raises before any directory is created or
any entry copied. -/
def setup_experiment_directory (src : Listing) (expDir : Option FsTree) :
    Except Err (Listing × List CopyOp) :=
  match expDir with
  | some _ => .error Err.fileExists
  | none => copyItems [("Code", FsTree.dir []), ("Results", FsTree.dir [])] src

theorem lookupEntry_setEntry_self (es : Listing) (n : String) (t : FsTree) :
    lookupEntry (setEntry es n t) n = some t := by
  induction es with
  | nil => simp [setEntry, lookupEntry]
  | cons mu rest ih =>
    rcases mu with ⟨m, u⟩
    by_cases h : m = n
    · subst h
      simp [setEntry, lookupEntry]
    · simp [setEntry, lookupEntry, h, ih]

theorem lookupEntry_setEntry_ne (es : Listing) (n m : String) (t : FsTree)
    (h : m ≠ n) :
    lookupEntry (setEntry es m t) n = lookupEntry es n := by
  induction es with
  | nil => simp [setEntry, lookupEntry, h]
  | cons ku rest ih =>
    rcases ku with ⟨k, u⟩
    by_cases h0 : k = m
    · subst h0
      simp [setEntry, lookupEntry, h]
    · simp [setEntry, lookupEntry, h0, ih]

/-- Names not copied by the loop keep their destination binding. -/
theorem copyItems_lookup_notMem (items : List (String × FsTree)) :
    ∀ dst out ops, copyItems dst items = .ok (out, ops) →
      ∀ n, n ∉ items.map Prod.fst → lookupEntry out n = lookupEntry dst n := by
  induction items with
  | nil =>
    intro dst out ops h n _
    simp only [copyItems] at h
    cases h
    rfl
  | cons it rest ih =>
    intro dst out ops h n hn
    rcases it with ⟨name, t⟩
    simp only [List.map_cons, List.mem_cons] at hn
    push_neg at hn
    rcases hn with ⟨hne, hrest⟩
    cases t with
    | dir es =>
      cases hl : lookupEntry dst name with
      | some u => simp [copyItems, hl] at h
      | none =>
        simp only [copyItems, hl] at h
        cases hrec : copyItems (setEntry dst name (FsTree.dir es)) rest with
        | error e => rw [hrec] at h; cases h
        | ok p =>
          rcases p with ⟨out1, ops1⟩
          rw [hrec] at h
          cases h
          rw [ih _ _ _ hrec n hrest]
          exact lookupEntry_setEntry_ne dst n name _ (fun hx => hne hx.symm)
    | file c =>
      cases hl : lookupEntry dst name with
      | some u =>
        cases u with
        | dir inner =>
          simp only [copyItems, hl] at h
          cases hrec : copyItems (setEntry dst name
              (FsTree.dir (setEntry inner name (FsTree.file c)))) rest with
          | error e => rw [hrec] at h; cases h
          | ok p =>
            rcases p with ⟨out1, ops1⟩
            rw [hrec] at h
            cases h
            rw [ih _ _ _ hrec n hrest]
            exact lookupEntry_setEntry_ne dst n name _ (fun hx => hne hx.symm)
        | file c0 =>
          simp only [copyItems, hl] at h
          cases hrec : copyItems (setEntry dst name (FsTree.file c)) rest with
          | error e => rw [hrec] at h; cases h
          | ok p =>
            rcases p with ⟨out1, ops1⟩
            rw [hrec] at h
            cases h
            rw [ih _ _ _ hrec n hrest]
            exact lookupEntry_setEntry_ne dst n name _ (fun hx => hne hx.symm)
      | none =>
        simp only [copyItems, hl] at h
        cases hrec : copyItems (setEntry dst name (FsTree.file c)) rest with
        | error e => rw [hrec] at h; cases h
        | ok p =>
          rcases p with ⟨out1, ops1⟩
          rw [hrec] at h
          cases h
          rw [ih _ _ _ hrec n hrest]
          exact lookupEntry_setEntry_ne dst n name _ (fun hx => hne hx.symm)

/-- A source entry whose name is fresh in the destination and unique in
the source listing ends up bound, unchanged, in the final run root. -/
theorem copyItems_lookup_mem (items : List (String × FsTree)) :
    ∀ dst out ops, copyItems dst items = .ok (out, ops) →
      (items.map Prod.fst).Nodup →
      ∀ n t, (n, t) ∈ items → lookupEntry dst n = none →
        lookupEntry out n = some t := by
  induction items with
  | nil =>
    intro dst out ops _ _ n t hmem
    cases hmem
  | cons it rest ih =>
    intro dst out ops h hnd n t hmem hdst
    rcases it with ⟨name, u⟩
    simp only [List.map_cons, List.nodup_cons] at hnd
    rcases hnd with ⟨hname, hndrest⟩
    rcases List.mem_cons.mp hmem with heq | hmemrest
    · cases heq
      cases t with
      | dir es =>
        simp only [copyItems, hdst] at h
        cases hrec : copyItems (setEntry dst n (FsTree.dir es)) rest with
        | error e => rw [hrec] at h; cases h
        | ok p =>
          rcases p with ⟨out1, ops1⟩
          rw [hrec] at h
          cases h
          rw [copyItems_lookup_notMem rest _ _ _ hrec n hname]
          exact lookupEntry_setEntry_self dst n _
      | file c =>
        simp only [copyItems, hdst] at h
        cases hrec : copyItems (setEntry dst n (FsTree.file c)) rest with
        | error e => rw [hrec] at h; cases h
        | ok p =>
          rcases p with ⟨out1, ops1⟩
          rw [hrec] at h
          cases h
          rw [copyItems_lookup_notMem rest _ _ _ hrec n hname]
          exact lookupEntry_setEntry_self dst n _
    · have hne : n ≠ name := by
        intro hx
        subst hx
        exact hname (List.mem_map_of_mem Prod.fst hmemrest)
      cases u with
      | dir es =>
        cases hl : lookupEntry dst name with
        | some u0 => simp [copyItems, hl] at h
        | none =>
          simp only [copyItems, hl] at h
          cases hrec : copyItems (setEntry dst name (FsTree.dir es)) rest with
          | error e => rw [hrec] at h; cases h
          | ok p =>
            rcases p with ⟨out1, ops1⟩
            rw [hrec] at h
            cases h
            refine ih _ _ _ hrec hndrest n t hmemrest ?_
            rw [lookupEntry_setEntry_ne dst n name _ (fun hx => hne hx.symm)]
            exact hdst
      | file c =>
        cases hl : lookupEntry dst name with
        | some u0 =>
          cases u0 with
          | dir inner =>
            simp only [copyItems, hl] at h
            cases hrec : copyItems (setEntry dst name
                (FsTree.dir (setEntry inner name (FsTree.file c)))) rest with
            | error e => rw [hrec] at h; cases h
            | ok p =>
              rcases p with ⟨out1, ops1⟩
              rw [hrec] at h
              cases h
              refine ih _ _ _ hrec hndrest n t hmemrest ?_
              rw [lookupEntry_setEntry_ne dst n name _ (fun hx => hne hx.symm)]
              exact hdst
          | file c0 =>
            simp only [copyItems, hl] at h
            cases hrec : copyItems (setEntry dst name (FsTree.file c)) rest with
            | error e => rw [hrec] at h; cases h
            | ok p =>
              rcases p with ⟨out1, ops1⟩
              rw [hrec] at h
              cases h
              refine ih _ _ _ hrec hndrest n t hmemrest ?_
              rw [lookupEntry_setEntry_ne dst n name _ (fun hx => hne hx.symm)]
              exact hdst
        | none =>
          simp only [copyItems, hl] at h
          cases hrec : copyItems (setEntry dst name (FsTree.file c)) rest with
          | error e => rw [hrec] at h; cases h
          | ok p =>
            rcases p with ⟨out1, ops1⟩
            rw [hrec] at h
            cases h
            refine ih _ _ _ hrec hndrest n t hmemrest ?_
            rw [lookupEntry_setEntry_ne dst n name _ (fun hx => hne hx.symm)]
            exact hdst

/-- Claim C7: when the run-directory path already exists,
`setup_experiment_directory` raises `FileExistsError` at the very first
`os.makedirs`, for every source listing and every pre-existing state of
the path; the error carries no run root, no subdirectory and no copy
trace, so no write occurred. -/
theorem setup_conflict (src : Listing) (t : FsTree) :
    setup_experiment_directory src (some t) = .error Err.fileExists := rfl

/-- Claim C8, counterexample: a source directory holding one regular
file named `Code` snapshots successfully, but `shutil.copy` drops the
file *inside* the pre-created `Code` subdirectory, so the run root's
entry `Code` is a directory and not the byte-identical source file. -/
theorem setup_snapshot_counterexample :
    setup_experiment_directory [("Code", FsTree.file "x")] none =
      .ok ([("Code", FsTree.dir [("Code", FsTree.file "x")]),
            ("Results", FsTree.dir [])],
           [CopyOp.file "Code"]) ∧
    lookupEntry [("Code", FsTree.dir [("Code", FsTree.file "x")]),
                 ("Results", FsTree.dir [])] "Code" ≠ some (FsTree.file "x") :=
  ⟨rfl, by simp [lookupEntry]⟩

/-- Claim C8, amended: after a successful `setup_experiment_directory`,
every source entry whose name is neither `Code` nor `Results` exists
under the run root with byte-identical content, recursively; an entry
named like one of the two pre-created subdirectories collides with it
instead (a directory so named aborts the call, a file so named is
copied into that subdirectory rather than to the run root). -/
theorem setup_snapshot (src out : Listing) (ops : List CopyOp)
    (n : String) (t : FsTree)
    (hnd : (src.map Prod.fst).Nodup) (hmem : (n, t) ∈ src)
    (hc : n ≠ "Code") (hr : n ≠ "Results")
    (hok : setup_experiment_directory src none = .ok (out, ops)) :
    lookupEntry out n = some t := by
  simp only [setup_experiment_directory] at hok
  refine copyItems_lookup_mem src _ _ _ hok hnd n t hmem ?_
  simp only [lookupEntry]
  rw [if_neg (fun h => hc h.symm), if_neg (fun h => hr h.symm)]

/-- Claim C8, witness: a source with one file and one subdirectory is
copied byte-identically into the run root. -/
theorem setup_snapshot_witness :
    lookupEntry [("Code", FsTree.dir []), ("Results", FsTree.dir []),
                 ("a", FsTree.file "hi"),
                 ("d", FsTree.dir [("z", FsTree.file "q")])] "d" =
      some (FsTree.dir [("z", FsTree.file "q")]) :=
  setup_snapshot
    [("a", FsTree.file "hi"), ("d", FsTree.dir [("z", FsTree.file "q")])]
    [("Code", FsTree.dir []), ("Results", FsTree.dir []),
     ("a", FsTree.file "hi"), ("d", FsTree.dir [("z", FsTree.file "q")])]
    [CopyOp.file "a", CopyOp.tree "d"]
    "d" (FsTree.dir [("z", FsTree.file "q")])
    (by decide)
    (List.mem_cons_of_mem _ (List.mem_cons_self _ _))
    (by decide) (by decide) rfl

/- ## `initialize_experiment_folder` (source lines 129-139)

`os.makedirs(CURR_DIR, exist_ok=True)` is a no-op on the existing
source directory; each of the four `open(..., "w").close()` calls
truncates an existing file to empty, creates the file when absent, and
raises `IsADirectoryError` when the name is bound to a directory. -/

/-- `open(name, "w").close()` applied to a listing. -/
def openTruncate (es : Listing) (n : String) : Except Err Listing :=
  match lookupEntry es n with
  | some (FsTree.dir _) => .error Err.isADirectory
  | _ => .ok (setEntry es n (FsTree.file ""))

/-- `initialize_experiment_folder`: truncate or create the four
scaffold files in the source directory, in source order. -/
def initialize_experiment_folder (src : Listing) : Except Err Listing :=
  match openTruncate src "main.py" with
  | .error e => .error e
  | .ok s1 =>
    match openTruncate s1 "main.sh" with
    | .error e => .error e
    | .ok s2 =>
      match openTruncate s2 "codepaths.txt" with
      | .error e => .error e
      | .ok s3 => openTruncate s3 "datapaths.txt"

theorem openTruncate_ok (es s2 : Listing) (n : String)
    (h : openTruncate es n = .ok s2) :
    s2 = setEntry es n (FsTree.file "") := by
  cases hl : lookupEntry es n with
  | none =>
    simp only [openTruncate, hl] at h
    exact (Except.ok.inj h).symm
  | some u =>
    cases u with
    | file c =>
      simp only [openTruncate, hl] at h
      exact (Except.ok.inj h).symm
    | dir es0 => simp [openTruncate, hl] at h

/-- Claim C10: a successful `--initialize` on an existing source
directory leaves each of the four scaffold names bound to an empty
file (prior contents lost) and every other entry exactly as it was. -/
theorem initialize_folder_spec (src out : Listing)
    (hok : initialize_experiment_folder src = .ok out) :
    lookupEntry out "main.py" = some (FsTree.file "") ∧
    lookupEntry out "main.sh" = some (FsTree.file "") ∧
    lookupEntry out "codepaths.txt" = some (FsTree.file "") ∧
    lookupEntry out "datapaths.txt" = some (FsTree.file "") ∧
    ∀ n, n ≠ "main.py" → n ≠ "main.sh" → n ≠ "codepaths.txt" →
      n ≠ "datapaths.txt" → lookupEntry out n = lookupEntry src n := by
  cases h1 : openTruncate src "main.py" with
  | error e => simp [initialize_experiment_folder, h1] at hok
  | ok s1 =>
    cases h2 : openTruncate s1 "main.sh" with
    | error e => simp [initialize_experiment_folder, h1, h2] at hok
    | ok s2 =>
      cases h3 : openTruncate s2 "codepaths.txt" with
      | error e => simp [initialize_experiment_folder, h1, h2, h3] at hok
      | ok s3 =>
        simp only [initialize_experiment_folder, h1, h2, h3] at hok
        have e1 := openTruncate_ok _ _ _ h1
        have e2 := openTruncate_ok _ _ _ h2
        have e3 := openTruncate_ok _ _ _ h3
        have e4 := openTruncate_ok _ _ _ hok
        subst e1; subst e2; subst e3; subst e4
        refine ⟨?_, ?_, ?_, ?_, ?_⟩
        · rw [lookupEntry_setEntry_ne _ _ _ _ (by decide),
              lookupEntry_setEntry_ne _ _ _ _ (by decide),
              lookupEntry_setEntry_ne _ _ _ _ (by decide)]
          exact lookupEntry_setEntry_self _ _ _
        · rw [lookupEntry_setEntry_ne _ _ _ _ (by decide),
              lookupEntry_setEntry_ne _ _ _ _ (by decide)]
          exact lookupEntry_setEntry_self _ _ _
        · rw [lookupEntry_setEntry_ne _ _ _ _ (by decide)]
          exact lookupEntry_setEntry_self _ _ _
        · exact lookupEntry_setEntry_self _ _ _
        · intro n hn1 hn2 hn3 hn4
          rw [lookupEntry_setEntry_ne _ _ _ _ (fun h => hn4 h.symm),
              lookupEntry_setEntry_ne _ _ _ _ (fun h => hn3 h.symm),
              lookupEntry_setEntry_ne _ _ _ _ (fun h => hn2 h.symm),
              lookupEntry_setEntry_ne _ _ _ _ (fun h => hn1 h.symm)]

/-- Claim C10, witness: initializing a folder that already holds a
non-empty `main.py` and an unrelated file truncates `main.py` and
leaves the unrelated file untouched. -/
theorem initialize_folder_witness :
    lookupEntry [("main.py", FsTree.file ""), ("data", FsTree.file "keep"),
                 ("main.sh", FsTree.file ""), ("codepaths.txt", FsTree.file ""),
                 ("datapaths.txt", FsTree.file "")] "main.py" =
      some (FsTree.file "") ∧
    lookupEntry [("main.py", FsTree.file ""), ("data", FsTree.file "keep"),
                 ("main.sh", FsTree.file ""), ("codepaths.txt", FsTree.file ""),
                 ("datapaths.txt", FsTree.file "")] "data" =
      lookupEntry [("main.py", FsTree.file "old"), ("data", FsTree.file "keep")]
        "data" :=
  ⟨(initialize_folder_spec
      [("main.py", FsTree.file "old"), ("data", FsTree.file "keep")]
      [("main.py", FsTree.file ""), ("data", FsTree.file "keep"),
       ("main.sh", FsTree.file ""), ("codepaths.txt", FsTree.file ""),
       ("datapaths.txt", FsTree.file "")] rfl).1,
   (initialize_folder_spec
      [("main.py", FsTree.file "old"), ("data", FsTree.file "keep")]
      [("main.py", FsTree.file ""), ("data", FsTree.file "keep"),
       ("main.sh", FsTree.file ""), ("codepaths.txt", FsTree.file ""),
       ("datapaths.txt", FsTree.file "")] rfl).2.2.2.2 "data"
     (by decide) (by decide) (by decide) (by decide)⟩

/- ## The command-line entry point with no flag (source lines 176-183)

`python3 logger.py` runs the four lifecycle steps in order; an uncaught
exception terminates the interpreter with exit status 1, and a normal
fall-through exits 0.  Nothing inspects the child's exit status. -/

/-- Exit status of the orchestrator process when invoked with no flag:
run `setup_experiment_directory`, `capture_environment_info`,
`copy_external_code` and `run_experiment` in order; exit 1 on an
uncaught exception, else 0.  The entry-script existence checks of
`run_experiment` read the run directory produced by the snapshot
(`os.path.exists`, so any entry kind counts). -/
def main_no_flag (src : Listing) (expDir : Option FsTree)
    (pythonVersion : String)
    (distributions : Except Err (List (String × String)))
    (slurmJobId slurmdNodename : Option String)
    (unameNodename dockerInspect : Except Err String)
    (codepaths : Option (List String)) (extFs : ExtFs)
    (child : EntryChoice → ChildResult) : Int :=
  match setup_experiment_directory src expDir with
  | .error _ => 1
  | .ok (tree, _) =>
    match capture_environment_info pythonVersion distributions slurmJobId
        slurmdNodename unameNodename dockerInspect with
    | .error _ => 1
    | .ok _ =>
      match copy_external_code codepaths extFs with
      | .error _ => 1
      | .ok _ =>
        match run_experiment (lookupEntry tree "main.py").isSome
            (lookupEntry tree "main.sh").isSome child with
        | .error _ => 1
        | .ok _ => 0

/-- Claim C2, counterexample: with a well-formed run whose entry script
exits with status 1, `run_experiment` observes the status through
`process.wait()` but returns nothing, and the orchestrator exits 0 — a
non-zero child exit does not yield a non-zero orchestrator exit. -/
theorem run_status_counterexample :
    run_experiment true false (fun _ => { outputLines := [], exitCode := 1 }) =
      .ok { script := EntryChoice.py, warned := false, logContent := "",
            waitedExit := 1 } ∧
    main_no_flag [("main.py", FsTree.file "x")] none "3.11.0" (.ok []) none none
      (.ok "node") (.ok "img") none []
      (fun _ => { outputLines := [], exitCode := 1 }) = 0 :=
  ⟨rfl, rfl⟩

/-- Claim C2, amended: `run_experiment` does block until the child
terminates — `process.wait()` runs and the child's exit status is
observed — but the status is then discarded: the function returns
nothing, and from the command line with no flag the orchestrator exits
0 whenever no exception was raised, whatever the child's exit status. -/
theorem run_experiment_exit_discarded (py sh : Bool)
    (child : EntryChoice → ChildResult) (h : (py || sh) = true) :
    run_experiment py sh child =
      .ok { script := if sh then EntryChoice.sh else EntryChoice.py,
            warned := py && sh,
            logContent :=
              concatAll (child (if sh then EntryChoice.sh else EntryChoice.py)).outputLines,
            waitedExit :=
              (child (if sh then EntryChoice.sh else EntryChoice.py)).exitCode } ∧
    main_no_flag [("main.py", FsTree.file "x")] none "3.11.0" (.ok []) none none
      (.ok "node") (.ok "img") none [] child = 0 := by
  constructor
  · cases py <;> cases sh <;> simp_all [run_experiment]
  · simp [main_no_flag, setup_experiment_directory, copyItems, lookupEntry,
          setEntry, capture_environment_info, copy_external_code, run_experiment]

/-- Claim C2 amended, witness: a shell entry script that prints one line
and exits 3 is waited for, its status is recorded and dropped, and the
orchestrator exits 0. -/
theorem run_experiment_exit_discarded_witness :
    run_experiment false true (fun _ => { outputLines := ["hello"], exitCode := 3 }) =
      .ok { script := EntryChoice.sh, warned := false,
            logContent := concatAll ["hello"], waitedExit := 3 } ∧
    main_no_flag [("main.py", FsTree.file "x")] none "3.11.0" (.ok []) none none
      (.ok "node") (.ok "img") none []
      (fun _ => { outputLines := ["hello"], exitCode := 3 }) = 0 :=
  run_experiment_exit_discarded false true
    (fun _ => { outputLines := ["hello"], exitCode := 3 }) (by decide)
